import Mathlib

/-!
Shallow embedding of the docling-nest serverless handlers
(`src/lambda_handler.py` and `src/packages/docling/convert/__main__.py`).

Python strings are Lean `String`s; Python byte strings are also modelled as
`String`s (their exact encoding never matters to the handlers).  JSON values
and the Python dictionaries flowing through the handlers are modelled by
`JValue`.  The external docling library, the base64 / UTF-8 / JSON
standard-library primitives and the temporary-name generator are opaque
parameters collected in `Env`.  The filesystem is modelled as the list of
paths that currently exist.  Python exceptions are modelled with
`Except PyErr`.
-/

set_option autoImplicit false

/-- A Python exception, carrying `str(e)` and `type(e).__name__`. -/
structure PyErr where
  msg : String
  typeName : String
deriving DecidableEq

/-- A JSON value / Python object as it flows through the handlers.
Python `None` is `JValue.null`; numbers are modelled as integers (no claim
touches float payloads). -/
inductive JValue where
  | null
  | bool (b : Bool)
  | num (n : Int)
  | str (s : String)
  | arr (elems : List JValue)
  | obj (fields : List (String × JValue))

/-- A Python dictionary with string keys (the shape of the Lambda event). -/
abbrev JObj := List (String × JValue)

/-- Python truthiness of a value (`bool(v)`), as used by `if not source_url`,
`or`, and `if event.get("isBase64Encoded", False)` in the source. -/
def JValue.truthy : JValue → Bool
  | .null => false
  | .bool b => b
  | .num n => n != 0
  | .str s => !s.isEmpty
  | .arr l => !l.isEmpty
  | .obj l => !l.isEmpty

/-- Python class name of a value, used to render `AttributeError` /
`TypeError` messages. -/
def pyTypeName : JValue → String
  | .null => "NoneType"
  | .bool _ => "bool"
  | .num _ => "int"
  | .str _ => "str"
  | .arr _ => "list"
  | .obj _ => "dict"

/-- Python `d.get(k)` on a dictionary: the value if the key is present
(possibly `None`), else `None`. -/
def jGet (o : JObj) (k : String) : JValue :=
  (o.lookup k).getD .null

/-- Python `d.get(k, default)` on a dictionary. -/
def jGetD (o : JObj) (k : String) (dflt : JValue) : JValue :=
  (o.lookup k).getD dflt

/-- Python `v.get(k, default)` on an arbitrary value: succeeds on a
dictionary, raises `AttributeError` on anything else (this is exactly what
`event.get("requestContext", {}).get("http", {})` does when
`requestContext` is not a mapping). -/
def pyGet (v : JValue) (k : String) (dflt : JValue) : Except PyErr JValue :=
  match v with
  | .obj fields => .ok (jGetD fields k dflt)
  | w => .error { msg := "'" ++ pyTypeName w ++ "' object has no attribute 'get'",
                  typeName := "AttributeError" }

/-- Python `v == "lit"` for a JSON value against a string literal. -/
def isStrV (v : JValue) (s : String) : Bool :=
  match v with
  | .str t => t == s
  | _ => false

/-- Test for Python `None` (`body is None`). -/
def isNull : JValue → Bool
  | .null => true
  | _ => false

/-- Coercion to a filesystem path, as `pathlib.Path(v)` performs it: strings
pass through, anything else raises `TypeError`. -/
def jPathStr (v : JValue) : Except PyErr String :=
  match v with
  | .str s => .ok s
  | w => .error { msg := "argument should be a str or an os.PathLike object where __fspath__ returns a str, not <class '" ++ pyTypeName w ++ "'>",
                  typeName := "TypeError" }

/-- Rendering of a value inside a Python f-string (`f"... {v} ..."`).
Scalars are rendered exactly as Python does; the envelope shapes reaching
the route formatter only ever put `None` or strings here, so container
rendering is abbreviated. -/
def pyStr : JValue → String
  | .null => "None"
  | .bool true => "True"
  | .bool false => "False"
  | .num n => toString n
  | .str s => s
  | .arr _ => "[...]"
  | .obj _ => "{...}"

/-! ### Python string and `pathlib` primitives -/

/-- Last path component of `p` (`pathlib.Path(p).name`). -/
def lastComponentL (s : List Char) : List Char :=
  s.foldl (fun acc c => if c = '/' then [] else acc ++ [c]) []

/-- Python `Path(p).name`. -/
def nameOf (p : String) : String :=
  ⟨lastComponentL p.data⟩

/-- Index of the extension dot inside a bare file name, following
`pathlib`: the last dot, provided it is neither the first nor the last
character; otherwise there is no extension. -/
def extDotIdx (n : List Char) : Option Nat :=
  match n.reverse.findIdx? (fun c => c = '.') with
  | none => none
  | some j =>
    let i := n.length - 1 - j
    if 0 < i ∧ i < n.length - 1 then some i else none

/-- Python `Path(p).suffix` (the extension, dot included, possibly empty). -/
def suffixOf (p : String) : String :=
  let n := lastComponentL p.data
  match extDotIdx n with
  | some i => ⟨n.drop i⟩
  | none => ""

/-- Python `Path(p).stem` (the final component without its extension). -/
def stemOf (p : String) : String :=
  let n := lastComponentL p.data
  match extDotIdx n with
  | some i => ⟨n.take i⟩
  | none => ⟨n⟩

/-- Python `s.lower()` restricted to the ASCII extensions it is applied to. -/
def lowerStr (s : String) : String :=
  ⟨s.data.map Char.toLower⟩

/-- Does `old` start the list `s`? (Helper for the `str.replace` model.) -/
def startsWithL : List Char → List Char → Bool
  | [], _ => true
  | _ :: _, [] => false
  | a :: p, b :: s => a == b && startsWithL p s

theorem startsWithL_length : ∀ {p s : List Char}, startsWithL p s = true → p.length ≤ s.length := by
  intro p
  induction p with
  | nil => intro s _; exact Nat.zero_le _
  | cons a p ih =>
    intro s h
    cases s with
    | nil => simp [startsWithL] at h
    | cons b s =>
      simp only [startsWithL, Bool.and_eq_true] at h
      simpa using Nat.succ_le_succ (ih h.2)

/-- One pass of Python `s.replace(old, new)` with an explicit step budget:
leftmost, non-overlapping replacement of every occurrence, scanning left to
right and continuing after each inserted replacement.  Every step consumes
at least one character of `s`, so a budget of `s.length` always suffices
(the budget only makes the recursion structural). -/
def strReplaceAux (old new : List Char) : Nat → List Char → List Char
  | 0, s => s
  | fuel + 1, s =>
    if !old.isEmpty && startsWithL old s then
      new ++ strReplaceAux old new fuel (s.drop old.length)
    else
      match s with
      | [] => []
      | c :: tl => c :: strReplaceAux old new fuel tl

/-- Python `s.replace(old, new)` on character lists.  (The source only ever
calls it with a non-empty `old`; for `old = []` the scan leaves `s`
unchanged.) -/
def strReplace (old new s : List Char) : List Char :=
  strReplaceAux old new s.length s

/-- Python `s.replace(old, new)` on strings, receiver first. -/
def pyReplace (s old new : String) : String :=
  ⟨strReplace old.data new.data s.data⟩

/-- Python `old in s` (substring containment) on character lists. -/
def containsSub (old : List Char) : List Char → Bool
  | [] => startsWithL old []
  | c :: tl => startsWithL old (c :: tl) || containsSub old tl

/-- Python `old in s` on strings. -/
def pyContains (old s : String) : Bool :=
  containsSub old.data s.data

theorem strReplaceAux_of_not_containsSub {old new : List Char} :
    ∀ (fuel : Nat) (s : List Char), containsSub old s = false →
      strReplaceAux old new fuel s = s := by
  intro fuel
  induction fuel with
  | zero => intro s _; rfl
  | succ n ih =>
    intro s h
    cases s with
    | nil =>
      simp only [containsSub, Bool.or_eq_false_iff] at h ⊢
      simp [strReplaceAux, h]
    | cons c tl =>
      simp only [containsSub, Bool.or_eq_false_iff] at h
      simp only [strReplaceAux, h.1, Bool.and_false, Bool.false_eq_true, if_false]
      exact congrArg (c :: ·) (ih tl h.2)

theorem strReplace_of_not_containsSub {old new s : List Char}
    (h : containsSub old s = false) : strReplace old new s = s :=
  strReplaceAux_of_not_containsSub s.length s h

/-! ### Archive Packager: `create_zip_with_images` (lambda_handler.py:106-153)

The docling conversion result is opaque; the only capability
`create_zip_with_images` uses is `result.document.save_as_markdown(md_file,
image_mode=ImageRefMode.REFERENCED)`, which writes the markdown file and
zero or more referenced files into the scoped temporary directory.  That
black-box behaviour is captured by `SavedMarkdown`: the text written to
`<source_name>.md`, and the other files (relative path inside the temporary
directory, byte content) the library writes alongside it.  The name of the
scoped temporary directory chosen by `tempfile.TemporaryDirectory()` is the
`tmp_dir` argument of the model. -/

/-- Behaviour of `result.document.save_as_markdown(..., REFERENCED)`: the
markdown text, plus the extra files (relative path, bytes) written into the
export directory. -/
structure SavedMarkdown where
  mdText : String
  extraFiles : List (String × String)

/-- One entry of the in-memory zip archive: arcname and stored bytes. -/
structure ZipEntry where
  name : String
  content : String

/-- Extensions recognised as images (lambda_handler.py:133). -/
def imageExtensions : List String :=
  [".png", ".jpg", ".jpeg", ".gif", ".bmp"]

/-- Every file that exists in the export directory after
`save_as_markdown`: the markdown file itself plus the referenced files
(`tmp_path.rglob('*')`, restricted to files). -/
def dirFiles (saved : SavedMarkdown) (source_name : String) : List (String × String) :=
  (source_name ++ ".md", saved.mdText) :: saved.extraFiles

/-- Classification `file_path.suffix.lower() in ('.png', '.jpg', '.jpeg', '.gif', '.bmp')`. -/
def isImageFile (relPath : String) : Bool :=
  imageExtensions.contains (lowerStr (suffixOf relPath))

/-- The `image_files` list collected by the enumeration loop
(lambda_handler.py:132-135), in directory-enumeration order. -/
def imageFilesOf (saved : SavedMarkdown) (source_name : String) : List (String × String) :=
  (dirFiles saved source_name).filter (fun f => isImageFile f.1)

/-- Absolute path `str(img_file)` of a file inside the temporary directory. -/
def absPath (tmpDir relPath : String) : String :=
  tmpDir ++ "/" ++ relPath

/-- Model of `create_zip_with_images(result, source_name)`
(lambda_handler.py:106-153).  `saved` is the behaviour of the result's
`save_as_markdown`, `tmpDir` the name of the scoped temporary directory.
Returns the zip entries in write order and the reported image count. -/
def create_zip_with_images (saved : SavedMarkdown) (tmpDir source_name : String) :
    List ZipEntry × Nat :=
  let image_files := imageFilesOf saved source_name
  let image_count := image_files.length
  let md_content := image_files.foldl
    (fun acc f => pyReplace acc (absPath tmpDir f.1) (nameOf f.1)) saved.mdText
  ({ name := source_name ++ ".md", content := md_content } ::
      image_files.map (fun f => { name := nameOf f.1, content := f.2 }),
    image_count)

/-! ### Environment: the opaque collaborators

The docling library, the base64 / UTF-8 / JSON primitives and the
temporary-name generator are black boxes consumed through their documented
contracts; an `Env` fixes one behaviour for each of them. -/

/-- Pipeline options passed to the document converter
(`PdfPipelineOptions`): `do_ocr` and `generate_picture_images`. -/
structure PipelineConfig where
  do_ocr : Bool
  generate_picture_images : Bool
deriving DecidableEq

/-- The argument of `converter.convert(...)`: either the raw `source_url`
value, or the path of the temporary file written from the inline document. -/
inductive ConvertSource where
  | url (u : JValue)
  | path (p : String)

/-- The conversion result as far as this repository touches it:
`export_to_markdown()`, `len(result.document.pages)` when the attribute is
present, and the `save_as_markdown(..., REFERENCED)` behaviour. -/
structure Document where
  markdown : String
  numPages : Option Int
  saved : SavedMarkdown

/-- One fixed behaviour of all external collaborators. -/
structure Env where
  /-- Is the docling import available (`DocumentConverter is not None`)? -/
  doclingAvailable : Bool
  /-- Behaviour of `base64.b64decode(v)`: bytes on success, `binascii.Error`
  on malformed input, `TypeError` on non-string input. -/
  b64decode : JValue → Except PyErr String
  /-- Behaviour of `bytes.decode("utf-8")`. -/
  utf8decode : String → Except PyErr String
  /-- Behaviour of `json.loads`: `none` models `json.JSONDecodeError`. -/
  jsonLoads : String → Option JValue
  /-- Behaviour of `converter.convert(...)` under the given pipeline
  options: a conversion result, or a raised exception. -/
  convert : PipelineConfig → ConvertSource → Except PyErr Document
  /-- Name chosen by `tempfile.NamedTemporaryFile(delete=False, suffix=sfx)`
  as a function of the requested suffix. -/
  mkTemp : String → String
  /-- Name chosen by `tempfile.TemporaryDirectory()` inside
  `create_zip_with_images`. -/
  zipTmpDir : String

/-- The filesystem: the list of paths that currently exist. -/
abbrev FS := List String

/-- The `finally` block of the conversion functions:
`if os.path.exists(tmp_path): os.unlink(tmp_path)`. -/
def unlinkIfExists (p : String) (fs : FS) : FS :=
  if fs.contains p then fs.filter (fun q => q != p) else fs

theorem not_mem_unlinkIfExists (p : String) (fs : FS) :
    p ∉ unlinkIfExists p fs := by
  unfold unlinkIfExists
  split
  · intro hmem
    have h := List.mem_filter.mp hmem
    simp at h
  · rename_i hnc
    intro hmem
    exact hnc (List.elem_iff.mpr hmem)

/-! ### Response Formatter (lambda_handler.py:45-72)

Bodies are kept structured: `json.dumps` is injective on the `JValue`
payloads the handler builds, so a response body is modelled as the `JValue`
that gets serialized (or as the zip entries that get base64-encoded). -/

/-- Body of a formatted response: a JSON payload (serialized by
`json.dumps`) or zip-archive bytes (base64-encoded by the formatter). -/
inductive RespBody where
  | json (v : JValue)
  | binaryZip (entries : List ZipEntry)

/-- An API-Gateway response envelope. -/
structure Response where
  statusCode : Int
  headers : List (String × String)
  body : RespBody
  isBase64Encoded : Option Bool

/-- Model of `create_response` (lambda_handler.py:45-56). -/
def create_response (status_code : Int) (body : JValue) : Response :=
  { statusCode := status_code
    headers := [("Content-Type", "application/json"),
                ("Access-Control-Allow-Origin", "*"),
                ("Access-Control-Allow-Headers", "Content-Type"),
                ("Access-Control-Allow-Methods", "POST, OPTIONS")]
    body := .json body
    isBase64Encoded := none }

/-- Model of `create_binary_response` (lambda_handler.py:59-72). -/
def create_binary_response (status_code : Int) (body : List ZipEntry) (filename : String) :
    Response :=
  { statusCode := status_code
    headers := [("Content-Type", "application/zip"),
                ("Content-Disposition", "attachment; filename=\"" ++ filename ++ "\""),
                ("Access-Control-Allow-Origin", "*"),
                ("Access-Control-Allow-Headers", "Content-Type"),
                ("Access-Control-Allow-Methods", "POST, OPTIONS")]
    body := .binaryZip body
    isBase64Encoded := some true }

/-! ### Event Normalizer: `parse_event` (lambda_handler.py:75-103) -/

/-- Model of `parse_event(event)`. -/
def parse_event (env : Env) (event : JObj) : Except PyErr JValue :=
  if (event.lookup "body").isSome then
    let body := jGet event "body"
    if isNull body then .ok (.obj [])
    else
      let decoded : Except PyErr JValue :=
        if (jGetD event "isBase64Encoded" (.bool false)).truthy then
          match env.b64decode body with
          | .error e => .error e
          | .ok bs =>
            match env.utf8decode bs with
            | .error e => .error e
            | .ok t => .ok (.str t)
        else .ok body
      match decoded with
      | .error e => .error e
      | .ok b =>
        match b with
        | .str s =>
          match env.jsonLoads s with
          | some v => .ok v
          | none => .ok (.obj [])
        | v => .ok v
  else .ok (.obj event)

/-! ### Conversion Invoker (lambda_handler.py:156-323)

Both functions thread the filesystem and can raise; the pair they return is
(outcome, filesystem after all cleanup ran). -/

/-- The error body shared by the `Docling library not available` returns. -/
def libUnavailableBody : JValue :=
  .obj [("success", .bool false), ("error", .str "Docling library not available")]

/-- The missing-source validation error body. -/
def missingSourceBody : JValue :=
  .obj [("success", .bool false),
        ("error", .str "Either 'source_url' or 'document' (base64) must be provided")]

/-- The `metadata` mapping built on conversion success. -/
def metadataJ (numPages : Option Int) (source : JValue) : JValue :=
  .obj [("num_pages", match numPages with | some n => .num n | none => .null),
        ("source", source)]

/-- The success body of the JSON conversion route. -/
def successBody (markdown : String) (meta : JValue) : JValue :=
  .obj [("success", .bool true), ("markdown", .str markdown), ("metadata", meta)]

/-- The `AttributeError` raised by `args.get(...)` when the parsed payload
is not a mapping. -/
def attrGetError (w : JValue) : PyErr :=
  { msg := "'" ++ pyTypeName w ++ "' object has no attribute 'get'",
    typeName := "AttributeError" }

/-- Result dictionary of `convert_document`: `status_code` and `body`. -/
structure ConvResult where
  status_code : Int
  body : JValue

/-- Pipeline options of the standard route: OCR disabled
(lambda_handler.py:199-200). -/
def fastConfig : PipelineConfig :=
  { do_ocr := false, generate_picture_images := false }

/-- Model of `convert_document(args)` (lambda_handler.py:156-244). -/
def convert_document (env : Env) (args : JValue) (fs : FS) :
    Except PyErr ConvResult × FS :=
  if env.doclingAvailable = false then
    (.ok { status_code := 500, body := libUnavailableBody }, fs)
  else
    match args with
    | .obj fields =>
      let source_url := jGet fields "source_url"
      let document_b64 := jGet fields "document"
      let filename := jGetD fields "filename" (.str "document.pdf")
      if !source_url.truthy && !document_b64.truthy then
        (.ok { status_code := 400, body := missingSourceBody }, fs)
      else if source_url.truthy then
        match env.convert fastConfig (.url source_url) with
        | .error e => (.error e, fs)
        | .ok result =>
          (.ok { status_code := 200,
                 body := successBody result.markdown (metadataJ result.numPages source_url) }, fs)
      else
        match env.b64decode document_b64 with
        | .error e => (.error e, fs)
        | .ok _bytes =>
          match jPathStr filename with
          | .error e => (.error e, fs)
          | .ok fn =>
            let tmp_path := env.mkTemp (suffixOf fn)
            let fs1 := tmp_path :: fs
            match env.convert fastConfig (.path tmp_path) with
            | .error e => (.error e, unlinkIfExists tmp_path fs1)
            | .ok result =>
              (.ok { status_code := 200,
                     body := successBody result.markdown (metadataJ result.numPages filename) },
                unlinkIfExists tmp_path fs1)
    | w => (.error (attrGetError w), fs)

/-- Result dictionary of `export_document`: either
`{"status_code": ..., "error": ...}` or
`{"status_code": ..., "zip_bytes": ..., "filename": ...}`. -/
inductive ExportResult where
  | failure (status_code : Int) (error : String)
  | success (status_code : Int) (zip : List ZipEntry) (filename : String)

/-- Pipeline options of the export route: OCR disabled, picture images
enabled (lambda_handler.py:284-286). -/
def exportConfig : PipelineConfig :=
  { do_ocr := false, generate_picture_images := true }

/-- Model of `export_document(args)` (lambda_handler.py:247-323). -/
def export_document (env : Env) (args : JValue) (fs : FS) :
    Except PyErr ExportResult × FS :=
  if env.doclingAvailable = false then
    (.ok (.failure 500 "Docling library not available"), fs)
  else
    match args with
    | .obj fields =>
      let source_url := jGet fields "source_url"
      let document_b64 := jGet fields "document"
      let filename := jGetD fields "filename" (.str "document.pdf")
      if !source_url.truthy && !document_b64.truthy then
        (.ok (.failure 400 "Either 'source_url' or 'document' (base64) must be provided"), fs)
      else if source_url.truthy then
        match env.convert exportConfig (.url source_url) with
        | .error e => (.error e, fs)
        | .ok result =>
          match jPathStr source_url with
          | .error e => (.error e, fs)
          | .ok us =>
            let base_name := if stemOf us = "" then "document" else stemOf us
            let zipped := create_zip_with_images result.saved env.zipTmpDir base_name
            (.ok (.success 200 zipped.1 (base_name ++ ".zip")), fs)
      else
        match env.b64decode document_b64 with
        | .error e => (.error e, fs)
        | .ok _bytes =>
          match jPathStr filename with
          | .error e => (.error e, fs)
          | .ok fn =>
            let base_name := stemOf fn
            let tmp_path := env.mkTemp (suffixOf fn)
            let fs1 := tmp_path :: fs
            match env.convert exportConfig (.path tmp_path) with
            | .error e => (.error e, unlinkIfExists tmp_path fs1)
            | .ok result =>
              let fs2 := unlinkIfExists tmp_path fs1
              let zipped := create_zip_with_images result.saved env.zipTmpDir base_name
              (.ok (.success 200 zipped.1 (base_name ++ ".zip")), fs2)
    | w => (.error (attrGetError w), fs)

/-! ### Router / Handler (lambda_handler.py:326-380) -/

/-- The 500 error body built by the top-level exception boundary
(lambda_handler.py:376-380). -/
def errorBody (e : PyErr) : JValue :=
  .obj [("success", .bool false), ("error", .str e.msg), ("error_type", .str e.typeName)]

/-- Extraction of the HTTP method (lambda_handler.py:338): the
short-circuiting `event.get("httpMethod") or
event.get("requestContext", {}).get("http", {}).get("method")`.  The
chained `.get` calls raise `AttributeError` when `requestContext` (or its
`http` member) is present but not a mapping; this runs OUTSIDE the
handler's `try` block. -/
def extractHttpMethod (event : JObj) : Except PyErr JValue :=
  let m1 := jGet event "httpMethod"
  if m1.truthy then .ok m1
  else
    match pyGet (jGetD event "requestContext" (.obj [])) "http" (.obj []) with
    | .error e => .error e
    | .ok http =>
      match pyGet http "method" .null with
      | .error e => .error e
      | .ok m2 => .ok m2

/-- Extraction of the path (lambda_handler.py:343):
`event.get("path") or event.get("rawPath", "")`. -/
def extractPath (event : JObj) : JValue :=
  let p1 := jGet event "path"
  if p1.truthy then p1 else jGetD event "rawPath" (.str "")

/-- The guarded region of the handler (lambda_handler.py:347-373): parse
the event, then dispatch on `(path, method)`.  The returned pair is
(outcome, filesystem after the region ran); an `error` outcome is an
exception that escapes to the boundary. -/
def guardedRegion (env : Env) (event : JObj) (path http_method : JValue) (fs : FS) :
    Except PyErr Response × FS :=
  match parse_event env event with
  | .error e => (.error e, fs)
  | .ok args =>
    if isStrV path "/full" && isStrV http_method "POST" then
      match export_document env args fs with
      | (.error e, fs') => (.error e, fs')
      | (.ok (.failure sc msg), fs') =>
        (.ok (create_response sc (.obj [("success", .bool false), ("error", .str msg)])), fs')
      | (.ok (.success sc entries fn), fs') =>
        (.ok (create_binary_response sc entries fn), fs')
    else if (isStrV path "" || isStrV path "/") && isStrV http_method "POST" then
      match convert_document env args fs with
      | (.error e, fs') => (.error e, fs')
      | (.ok r, fs') => (.ok (create_response r.status_code r.body), fs')
    else
      (.ok (create_response 404 (.obj [("success", .bool false),
        ("error", .str ("Unknown endpoint: " ++ pyStr http_method ++ " " ++ pyStr path))])), fs)

/-- Model of `handler(event, context)` (lambda_handler.py:326-380).  An
`error` outcome is an exception that escaped the handler (an unhandled
fault of the invocation). -/
def handler (env : Env) (event : JObj) (fs : FS) : Except PyErr Response × FS :=
  match extractHttpMethod event with
  | .error e => (.error e, fs)
  | .ok http_method =>
    if isStrV http_method "OPTIONS" then
      (.ok (create_response 200 (.obj [("message", .str "OK")])), fs)
    else
      let path := extractPath event
      if isStrV path "/" && isStrV http_method "GET" then
        (.ok (create_response 200 (.obj [("status", .str "healthy"),
          ("service", .str "docling-converter")])), fs)
      else
        match guardedRegion env event path http_method fs with
        | (.ok resp, fs') => (.ok resp, fs')
        | (.error e, fs') => (.ok (create_response 500 (errorBody e)), fs')

/-- Normal-return test for an invocation outcome. -/
def okB : Except PyErr Response → Bool
  | .ok _ => true
  | .error _ => false

/-! ### The simpler historical variant
(`src/packages/docling/convert/__main__.py`) -/

/-- Return value of the DigitalOcean `main(args)`: `statusCode` plus the
body dictionary (no headers, no serialization). -/
structure SimpleResult where
  statusCode : Int
  body : JValue

/-- Pipeline options of `DocumentConverter()` with no `format_options`
(the docling defaults: OCR enabled, no picture images). -/
def defaultConverterConfig : PipelineConfig :=
  { do_ocr := true, generate_picture_images := false }

/-- Model of `main(args)` (src/packages/docling/convert/__main__.py:21-119).
The whole body runs inside `try/except`, so `main` always returns.  (The
declaration lives in a namespace because a bare top-level `main` is
reserved by Lean.) -/
def Convert.main (env : Env) (args : JValue) (fs : FS) : SimpleResult × FS :=
  if env.doclingAvailable = false then
    ({ statusCode := 500, body := libUnavailableBody }, fs)
  else
    match args with
    | .obj fields =>
      let source_url := jGet fields "source_url"
      let document_b64 := jGet fields "document"
      let filename := jGetD fields "filename" (.str "document.pdf")
      -- `extract_tables_as_images` and `image_resolution_scale` are read
      -- (lines 58-59) but never used.
      let _ := jGetD fields "extract_tables_as_images" (.bool false)
      let _ := jGetD fields "image_resolution_scale" (.num 2)
      if !source_url.truthy && !document_b64.truthy then
        ({ statusCode := 400, body := missingSourceBody }, fs)
      else if source_url.truthy then
        match env.convert defaultConverterConfig (.url source_url) with
        | .error e => ({ statusCode := 500, body := errorBody e }, fs)
        | .ok result =>
          ({ statusCode := 200,
             body := successBody result.markdown (metadataJ result.numPages source_url) }, fs)
      else
        match env.b64decode document_b64 with
        | .error e => ({ statusCode := 500, body := errorBody e }, fs)
        | .ok _bytes =>
          match jPathStr filename with
          | .error e => ({ statusCode := 500, body := errorBody e }, fs)
          | .ok fn =>
            let tmp_path := env.mkTemp (suffixOf fn)
            let fs1 := tmp_path :: fs
            match env.convert defaultConverterConfig (.path tmp_path) with
            | .error e => ({ statusCode := 500, body := errorBody e }, unlinkIfExists tmp_path fs1)
            | .ok result =>
              ({ statusCode := 200,
                 body := successBody result.markdown (metadataJ result.numPages filename) },
                unlinkIfExists tmp_path fs1)
    | w => ({ statusCode := 500, body := errorBody (attrGetError w) }, fs)

/-- The canonical variant's standard conversion route applied to already
normalized arguments: the `POST /` branch of the handler together with its
top-level exception boundary (lambda_handler.py:365-368 and 375-380). -/
def standardRoute (env : Env) (args : JValue) (fs : FS) : Response × FS :=
  match convert_document env args fs with
  | (.error e, fs') => (create_response 500 (errorBody e), fs')
  | (.ok r, fs') => (create_response r.status_code r.body, fs')

/-! ### Concrete environments used by witnesses and counterexamples -/

/-- A conversion result with fixed content. -/
def docC : Document :=
  { markdown := "# Title", numPages := some 3, saved := { mdText := "body", extraFiles := [] } }

/-- Environment whose converter always raises. -/
def envC : Env :=
  { doclingAvailable := true
    b64decode := fun _ => .ok ""
    utf8decode := fun s => .ok s
    jsonLoads := fun _ => none
    convert := fun _ _ => .error { msg := "boom", typeName := "RuntimeError" }
    mkTemp := fun sfx => "/tmp/tmpabc" ++ sfx
    zipTmpDir := "/tmp/ziptmp" }

/-- Environment whose converter always succeeds with `docC`, insensitive to
the pipeline options. -/
def envOk : Env :=
  { envC with convert := fun _ _ => .ok docC }

/-- Conversion result whose markdown depends on the pipeline options. -/
def docDiff (c : PipelineConfig) : Document :=
  { markdown := if c.do_ocr then "OCR" else "NOOCR", numPages := none,
    saved := { mdText := "", extraFiles := [] } }

/-- Environment whose converter output depends on the pipeline options. -/
def envDiff : Env :=
  { envC with convert := fun c _ => .ok (docDiff c) }

/-- The exception raised by `base64.b64decode` on malformed input. -/
def badB64Err : PyErr :=
  { msg := "Invalid base64-encoded string", typeName := "Error" }

/-- Environment whose base64 decoder raises `binascii.Error`. -/
def envBadB64 : Env :=
  { envC with b64decode := fun _ => .error badB64Err }

/-! ### Helper lemmas -/

theorem foldl_pyReplace_of_no_occurrence (tmpDir : String) :
    ∀ (l : List (String × String)) (md : String),
      (∀ f ∈ l, pyContains (absPath tmpDir f.1) md = false) →
      l.foldl (fun acc f => pyReplace acc (absPath tmpDir f.1) (nameOf f.1)) md = md := by
  intro l
  induction l with
  | nil => intro md _; rfl
  | cons f t ih =>
    intro md h
    have h1 : containsSub (absPath tmpDir f.1).data md.data = false :=
      h f (List.mem_cons_self f t)
    have hstep : pyReplace md (absPath tmpDir f.1) (nameOf f.1) = md := by
      obtain ⟨d⟩ := md
      exact congrArg String.mk (strReplace_of_not_containsSub h1)
    rw [List.foldl_cons, hstep]
    exact ih md (fun g hg => h g (List.mem_cons_of_mem f hg))

/-! ### Claim theorems -/

/-- C1: for every conversion result that yields N image files (extensions
`.png/.jpg/.jpeg/.gif/.bmp`, case-insensitive) in the export directory,
`create_zip_with_images` returns an archive with exactly N+1 entries — the
markdown entry named `<base_name>.md` first, then each image file stored
under only its bare filename (subdirectory structure discarded, content
preserved) — together with the reported image count N; for N = 0 the
archive holds exactly the one markdown entry and the count is 0. -/
theorem create_zip_archive_structure (saved : SavedMarkdown) (tmpDir source_name : String) :
    ∃ md_content,
      (create_zip_with_images saved tmpDir source_name).1 =
        { name := source_name ++ ".md", content := md_content } ::
          (imageFilesOf saved source_name).map (fun f => { name := nameOf f.1, content := f.2 }) ∧
      (create_zip_with_images saved tmpDir source_name).2 =
        (imageFilesOf saved source_name).length ∧
      (create_zip_with_images saved tmpDir source_name).1.length =
        (create_zip_with_images saved tmpDir source_name).2 + 1 ∧
      ((create_zip_with_images saved tmpDir source_name).2 = 0 →
        (create_zip_with_images saved tmpDir source_name).1 =
          [{ name := source_name ++ ".md", content := md_content }]) := by
  refine ⟨(imageFilesOf saved source_name).foldl
      (fun (acc : String) (f : String × String) =>
        pyReplace acc (absPath tmpDir f.1) (nameOf f.1)) saved.mdText,
    rfl, rfl, ?_, ?_⟩
  · simp [create_zip_with_images]
  · intro h0
    have he : imageFilesOf saved source_name = [] := by
      have : (imageFilesOf saved source_name).length = 0 := h0
      exact List.length_eq_zero.mp this
    simp [create_zip_with_images, he]

/-- The saved-markdown behaviour used by the C1 witness: no images. -/
def savedNoImages : SavedMarkdown :=
  { mdText := "hello", extraFiles := [] }

/-- C1 witness: a concrete zero-image export. -/
theorem create_zip_archive_structure_witness :
    (create_zip_with_images savedNoImages "/tmp/x" "doc").1 =
      [{ name := "doc.md", content := "hello" }] ∧
    (create_zip_with_images savedNoImages "/tmp/x" "doc").2 = 0 := by
  obtain ⟨m, h1, h2, h3, h4⟩ := create_zip_archive_structure savedNoImages "/tmp/x" "doc"
  have hc : (create_zip_with_images savedNoImages "/tmp/x" "doc").2 = 0 := rfl
  have hall := h4 hc
  have hm : m = "hello" := by
    have he : (create_zip_with_images savedNoImages "/tmp/x" "doc").1 =
        [{ name := "doc.md", content := "hello" }] := rfl
    have := he ▸ hall
    injection this with hhead _
    injection hhead with _ hcont
    exact hcont.symm
  exact ⟨hm ▸ hall, hc⟩

/-- The saved-markdown behaviour of the C2 counterexample: the document
text contains the string `/t/x` immediately followed by the absolute path
of the image `b.png`, so replacing `/t/b.png` by `b.png` recreates the
absolute path `/t/xb.pngy.png` of the other collected image. -/
def cexSaved : SavedMarkdown :=
  { mdText := "/t/x/t/b.pngy.png", extraFiles := [("xb.pngy.png", "I1"), ("b.png", "I2")] }

/-- C2 counterexample: the markdown entry written into the archive DOES
contain an absolute filesystem path — in fact the full temporary path of
the collected image file `xb.pngy.png` — because the sequential plain
replacement recreated it. -/
theorem markdown_rewrite_abs_path_counterexample :
    ((create_zip_with_images cexSaved "/t" "doc").1.head?.map (fun e => e.content)) =
      some "/t/xb.pngy.png" ∧
    ("xb.pngy.png", "I1") ∈ imageFilesOf cexSaved "doc" ∧
    pyContains (absPath "/t" "xb.pngy.png") "/t/xb.pngy.png" = true := by
  refine ⟨rfl, ?_, rfl⟩
  have he : imageFilesOf cexSaved "doc" = [("xb.pngy.png", "I1"), ("b.png", "I2")] := rfl
  rw [he]
  exact List.mem_cons_self _ _

/-- C2 (amended): the markdown rewrite is a plain sequential substring
replacement — for each collected image file in enumeration order, every
occurrence of its full temporary path present at that step is replaced by
its bare filename, with no markdown-aware parsing — and markdown text
containing no occurrence of any collected image's full temporary path is
written into the archive unchanged.  (The claim's further guarantee that
the stored markdown contains no absolute filesystem path substrings does
not hold: paths other than the collected image paths are preserved
verbatim, and a later replacement can even recreate an earlier image's
path, see the counterexample.) -/
theorem markdown_rewrite_plain_replace (saved : SavedMarkdown) (tmpDir source_name : String) :
    (create_zip_with_images saved tmpDir source_name).1.head? =
      some { name := source_name ++ ".md",
             content := (imageFilesOf saved source_name).foldl
               (fun acc f => pyReplace acc (absPath tmpDir f.1) (nameOf f.1)) saved.mdText } ∧
    ((∀ f ∈ imageFilesOf saved source_name,
        pyContains (absPath tmpDir f.1) saved.mdText = false) →
      (create_zip_with_images saved tmpDir source_name).1.head? =
        some { name := source_name ++ ".md", content := saved.mdText }) := by
  refine ⟨rfl, fun h => ?_⟩
  have hr := foldl_pyReplace_of_no_occurrence tmpDir (imageFilesOf saved source_name)
    saved.mdText h
  have h1 : (create_zip_with_images saved tmpDir source_name).1.head? =
      some { name := source_name ++ ".md",
             content := (imageFilesOf saved source_name).foldl
               (fun (acc : String) (f : String × String) =>
                 pyReplace acc (absPath tmpDir f.1) (nameOf f.1)) saved.mdText } := rfl
  rw [h1, hr]

/-- The saved-markdown behaviour used by the C2 witness: one image whose
temporary path does not occur in the markdown text. -/
def savedPlain : SavedMarkdown :=
  { mdText := "plain text", extraFiles := [("pic.png", "IMG")] }

/-- C2 witness: with no occurrence of the collected image's temporary path,
the markdown entry is stored unchanged. -/
theorem markdown_rewrite_plain_replace_witness :
    (create_zip_with_images savedPlain "/tmp/d" "doc").1.head? =
      some { name := "doc.md", content := "plain text" } :=
  (markdown_rewrite_plain_replace savedPlain "/tmp/d" "doc").2 (by decide)

/-- C3: evaluation of the handler at a direct-invocation event
(`{"source_url": ...}`, no `body`, no `httpMethod`, no `path`).  The
extracted method is `None`, so the `POST`-only standard route guard fails
and the handler answers 404 `Unknown endpoint: None ` instead of
dispatching the payload to `convert_document` — contradicting both the
spec and the module's own docstring, which promise direct-invocation
support. -/
theorem direct_invocation_returns_404 :
    handler envC [("source_url", JValue.str "https://example.com/a.pdf")] [] =
      (.ok (create_response 404 (.obj [("success", .bool false),
        ("error", .str "Unknown endpoint: None ")])), []) := rfl

/-- C4 counterexample: an event whose `requestContext` is present but not a
mapping makes the chained `.get` calls of the method extraction — which run
BEFORE the handler's `try` block — raise `AttributeError`, and the fault
propagates out of the handler uncaught. -/
theorem handler_preguard_fault_counterexample :
    (handler envC [("requestContext", JValue.num 5)] []).1 =
      .error { msg := "'int' object has no attribute 'get'", typeName := "AttributeError" } := rfl

/-- C4 (amended): whenever the pre-guard method extraction succeeds, the
handler returns a well-formed response; and every exception raised inside
the guarded region (event parsing, conversion, export, packaging) is
caught at the single boundary and converted into a status-500 JSON
response carrying the exception's message and type name.  (The claim's
universal no-unhandled-fault guarantee fails only for events whose
`requestContext` / `requestContext.http` members are present but not
mappings, where the extraction raises before the guard.) -/
theorem handler_errors_become_500 (env : Env) (event : JObj) (fs : FS) (m : JValue)
    (hm : extractHttpMethod event = .ok m) :
    okB (handler env event fs).1 = true ∧
    (∀ e fs', isStrV m "OPTIONS" = false →
      (isStrV (extractPath event) "/" && isStrV m "GET") = false →
      guardedRegion env event (extractPath event) m fs = (.error e, fs') →
      handler env event fs = (.ok (create_response 500 (errorBody e)), fs')) := by
  by_cases hOpt : isStrV m "OPTIONS" = true
  · constructor
    · simp [handler, hm, hOpt, okB]
    · intro e fs' hO _ _
      rw [hOpt] at hO
      cases hO
  · by_cases hH : (isStrV (extractPath event) "/" && isStrV m "GET") = true
    · constructor
      · simp [handler, hm, hOpt, hH, okB]
      · intro e fs' _ hH2 _
        rw [hH] at hH2
        cases hH2
    · rcases hg : guardedRegion env event (extractPath event) m fs with ⟨o, fs2⟩
      cases o with
      | ok r =>
        constructor
        · simp [handler, hm, hOpt, hH, hg, okB]
        · intro e fs' _ _ hge
          injection hge with h1 _
          cases h1
      | error e0 =>
        constructor
        · simp [handler, hm, hOpt, hH, hg, okB]
        · intro e fs' _ _ hge
          injection hge with h1 h2
          injection h1 with h3
          subst h3
          subst h2
          simp [handler, hm, hOpt, hH, hg]

/-- The C4 witness event: a proxy envelope whose base64-flagged body makes
`base64.b64decode` raise inside `parse_event`. -/
def badB64Event : JObj :=
  [("body", JValue.str "!x"), ("isBase64Encoded", JValue.bool true)]

/-- C4 witness: the `binascii.Error` raised inside the guarded region at a
concrete event becomes a 500 JSON response with message and type name. -/
theorem handler_errors_become_500_witness :
    okB (handler envBadB64 badB64Event []).1 = true ∧
    handler envBadB64 badB64Event [] =
      (.ok (create_response 500 (errorBody badB64Err)), []) := by
  obtain ⟨h1, h2⟩ := handler_errors_become_500 envBadB64 badB64Event [] JValue.null rfl
  exact ⟨h1, h2 badB64Err [] rfl rfl rfl⟩

/-- C5: with the docling library available, a payload whose `source_url`
and `document` are both absent (or otherwise falsy) makes both
`convert_document` and `export_document` return the 400 missing-source
validation error — as a value equal for every environment, so the
conversion library is never consulted and the filesystem is untouched. -/
theorem missing_source_returns_400 (env : Env) (fields : JObj) (fs : FS)
    (havail : env.doclingAvailable = true)
    (hsrc : (jGet fields "source_url").truthy = false)
    (hdoc : (jGet fields "document").truthy = false) :
    convert_document env (.obj fields) fs =
      (.ok { status_code := 400, body := missingSourceBody }, fs) ∧
    export_document env (.obj fields) fs =
      (.ok (.failure 400 "Either 'source_url' or 'document' (base64) must be provided"), fs) := by
  constructor
  · unfold convert_document
    rw [if_neg (by simp [havail])]
    simp [hsrc, hdoc]
  · unfold export_document
    rw [if_neg (by simp [havail])]
    simp [hsrc, hdoc]

/-- C5 witness: the empty payload at a concrete environment. -/
theorem missing_source_returns_400_witness :
    convert_document envC (.obj []) [] =
      (.ok { status_code := 400, body := missingSourceBody }, []) ∧
    export_document envC (.obj []) [] =
      (.ok (.failure 400 "Either 'source_url' or 'document' (base64) must be provided"), []) :=
  missing_source_returns_400 envC [] [] rfl rfl rfl

/-- C6: for inline base64 input (falsy `source_url`, truthy `document`,
decodable payload), the temporary source file created by
`convert_document` / `export_document` does not exist on disk when the
operation finishes — for EVERY converter behaviour, i.e. whether the
conversion call returns successfully or raises. -/
theorem inline_temp_file_deleted (env : Env) (fields : JObj) (fs : FS) (bs fn : String)
    (havail : env.doclingAvailable = true)
    (hsrc : (jGet fields "source_url").truthy = false)
    (hdoc : (jGet fields "document").truthy = true)
    (hb64 : env.b64decode (jGet fields "document") = .ok bs)
    (hfn : jPathStr (jGetD fields "filename" (.str "document.pdf")) = .ok fn) :
    env.mkTemp (suffixOf fn) ∉ (convert_document env (.obj fields) fs).2 ∧
    env.mkTemp (suffixOf fn) ∉ (export_document env (.obj fields) fs).2 := by
  constructor
  · unfold convert_document
    rw [if_neg (by simp [havail])]
    simp only [hsrc, hdoc, hb64, hfn, Bool.not_false, Bool.not_true, Bool.and_false,
      Bool.false_and, Bool.false_eq_true, if_false]
    cases env.convert fastConfig (.path (env.mkTemp (suffixOf fn))) with
    | error e => exact not_mem_unlinkIfExists _ _
    | ok r => exact not_mem_unlinkIfExists _ _
  · unfold export_document
    rw [if_neg (by simp [havail])]
    simp only [hsrc, hdoc, hb64, hfn, Bool.not_false, Bool.not_true, Bool.and_false,
      Bool.false_and, Bool.false_eq_true, if_false]
    cases env.convert exportConfig (.path (env.mkTemp (suffixOf fn))) with
    | error e => exact not_mem_unlinkIfExists _ _
    | ok r => exact not_mem_unlinkIfExists _ _

/-- The C6 witness payload: inline base64 input only. -/
def inlineDocArgs : JObj := [("document", JValue.str "AAAA")]

/-- C6 witness: a concrete inline-base64 conversion whose converter raises;
the temporary file is gone from the final filesystem of both operations. -/
theorem inline_temp_file_deleted_witness :
    "/tmp/tmpabc.pdf" ∉ (convert_document envC (.obj inlineDocArgs) []).2 ∧
    "/tmp/tmpabc.pdf" ∉ (export_document envC (.obj inlineDocArgs) []).2 :=
  inline_temp_file_deleted envC inlineDocArgs [] "" "document.pdf" rfl rfl rfl rfl rfl

/-- C10: source presence is decided by truthiness, not key presence — a
payload carrying falsy values under both keys (for example
`{"source_url": "", "document": ""}`) is treated by `convert_document` and
`export_document` exactly like the payload with both keys omitted, and
(with the library available) yields the 400 missing-source error. -/
theorem falsy_source_same_as_absent (env : Env) (fs : FS) (s d : JValue)
    (hs : s.truthy = false) (hd : d.truthy = false) :
    convert_document env (.obj [("source_url", s), ("document", d)]) fs =
      convert_document env (.obj []) fs ∧
    export_document env (.obj [("source_url", s), ("document", d)]) fs =
      export_document env (.obj []) fs ∧
    (env.doclingAvailable = true →
      convert_document env (.obj [("source_url", s), ("document", d)]) fs =
        (.ok { status_code := 400, body := missingSourceBody }, fs)) := by
  have e1 : jGet [("source_url", s), ("document", d)] "source_url" = s := rfl
  have e2 : jGet [("source_url", s), ("document", d)] "document" = d := rfl
  have e3 : jGet [] "source_url" = JValue.null := rfl
  have e4 : jGet [] "document" = JValue.null := rfl
  have e5 : JValue.null.truthy = false := rfl
  refine ⟨?_, ?_, ?_⟩
  · unfold convert_document
    by_cases hA : env.doclingAvailable = false
    · simp [hA]
    · rw [if_neg hA, if_neg hA]
      simp [e1, e2, e3, e4, e5, hs, hd]
  · unfold export_document
    by_cases hA : env.doclingAvailable = false
    · simp [hA]
    · rw [if_neg hA, if_neg hA]
      simp [e1, e2, e3, e4, e5, hs, hd]
  · intro havail
    unfold convert_document
    rw [if_neg (by simp [havail])]
    simp [e1, e2, hs, hd]

/-- C10 witness: empty strings under both keys at a concrete environment. -/
theorem falsy_source_same_as_absent_witness :
    convert_document envC (.obj [("source_url", JValue.str ""), ("document", JValue.str "")]) [] =
      convert_document envC (.obj []) [] ∧
    convert_document envC (.obj [("source_url", JValue.str ""), ("document", JValue.str "")]) [] =
      (.ok { status_code := 400, body := missingSourceBody }, []) := by
  obtain ⟨h1, _h2, h3⟩ :=
    falsy_source_same_as_absent envC [] (JValue.str "") (JValue.str "") rfl rfl
  exact ⟨h1, h3 rfl⟩

/-- Test for a Python string value. -/
def isStrVal : JValue → Bool
  | .str _ => true
  | _ => false

/-- C7: the case analysis of `parse_event` — a present-but-null `body`
yields the empty mapping; a base64-flagged body is decoded to UTF-8 text
before JSON parsing; a string body that fails JSON parsing yields the
empty mapping instead of raising; a structured (non-string, non-null) body
with the flag unset is returned as-is; and with no `body` key the entire
envelope is the payload.  (Given the fixed standard-library behaviours in
`Env`, `parse_event` is a pure function of the envelope.) -/
theorem parse_event_spec (env : Env) (event : JObj) :
    (event.lookup "body" = some .null → parse_event env event = .ok (.obj [])) ∧
    (∀ b bs t, event.lookup "body" = some b → isNull b = false →
      (jGetD event "isBase64Encoded" (.bool false)).truthy = true →
      env.b64decode b = .ok bs → env.utf8decode bs = .ok t →
      parse_event env event =
        .ok (match env.jsonLoads t with | some v => v | none => .obj [])) ∧
    (∀ s, event.lookup "body" = some (.str s) →
      (jGetD event "isBase64Encoded" (.bool false)).truthy = false →
      env.jsonLoads s = none →
      parse_event env event = .ok (.obj [])) ∧
    (∀ v, event.lookup "body" = some v → isNull v = false → isStrVal v = false →
      (jGetD event "isBase64Encoded" (.bool false)).truthy = false →
      parse_event env event = .ok v) ∧
    (event.lookup "body" = none → parse_event env event = .ok (.obj event)) := by
  refine ⟨?_, ?_, ?_, ?_, ?_⟩
  · intro hb
    simp [parse_event, hb, jGet, isNull]
  · intro b bs t hb hn hflag hb64 hutf8
    simp only [parse_event, hb, Option.isSome_some, if_true, jGet, Option.getD_some, hn,
      Bool.false_eq_true, if_false, hflag, if_true, hb64, hutf8]
    cases env.jsonLoads t <;> simp
  · intro s hb hflag hjson
    simp [parse_event, hb, jGet, isNull, hflag, hjson]
  · intro v hb hn hsv hflag
    cases v with
    | str s => simp [isStrVal] at hsv
    | null => simp [isNull] at hn
    | bool b => simp [parse_event, hb, jGet, isNull, hflag]
    | num n => simp [parse_event, hb, jGet, isNull, hflag]
    | arr l => simp [parse_event, hb, jGet, isNull, hflag]
    | obj l => simp [parse_event, hb, jGet, isNull, hflag]
  · intro hb
    simp [parse_event, hb]

/-- C7 witness: the five cases at concrete envelopes. -/
theorem parse_event_spec_witness :
    parse_event envC [("body", JValue.null)] = .ok (.obj []) ∧
    parse_event envC [("body", JValue.str "e30="), ("isBase64Encoded", JValue.bool true)] =
      .ok (.obj []) ∧
    parse_event envC [("body", JValue.str "not json")] = .ok (.obj []) ∧
    parse_event envC [("body", JValue.obj [("x", JValue.num 1)])] =
      .ok (.obj [("x", JValue.num 1)]) ∧
    parse_event envC [("source_url", JValue.str "u")] =
      .ok (.obj [("source_url", JValue.str "u")]) := by
  refine ⟨?_, ?_, ?_, ?_, ?_⟩
  · exact (parse_event_spec envC [("body", JValue.null)]).1 rfl
  · exact (parse_event_spec envC
      [("body", JValue.str "e30="), ("isBase64Encoded", JValue.bool true)]).2.1
      (JValue.str "e30=") "" "" rfl rfl rfl rfl rfl
  · exact (parse_event_spec envC [("body", JValue.str "not json")]).2.2.1
      "not json" rfl rfl rfl
  · exact (parse_event_spec envC [("body", JValue.obj [("x", JValue.num 1)])]).2.2.2.1
      (JValue.obj [("x", JValue.num 1)]) rfl rfl rfl rfl
  · exact (parse_event_spec envC [("source_url", JValue.str "u")]).2.2.2.2 rfl

/-- C8: source selection in `convert_document`.  When `source_url` is
truthy, conversion runs from the URL value — the inline `document` is
ignored, the filesystem is untouched (no temporary file), and the
metadata's `source` equals the given `source_url`.  When `source_url` is
falsy and `document` truthy, conversion runs from the temporary file and
the metadata's `source` equals the `filename` value (defaulting to
`"document.pdf"` when the key is absent). -/
theorem convert_source_selection (env : Env) (fields : JObj) (fs : FS) (doc : Document)
    (havail : env.doclingAvailable = true) :
    ((jGet fields "source_url").truthy = true →
      env.convert fastConfig (.url (jGet fields "source_url")) = .ok doc →
      convert_document env (.obj fields) fs =
        (.ok { status_code := 200,
               body := successBody doc.markdown
                 (metadataJ doc.numPages (jGet fields "source_url")) }, fs)) ∧
    (∀ bs fn, (jGet fields "source_url").truthy = false →
      (jGet fields "document").truthy = true →
      env.b64decode (jGet fields "document") = .ok bs →
      jPathStr (jGetD fields "filename" (.str "document.pdf")) = .ok fn →
      env.convert fastConfig (.path (env.mkTemp (suffixOf fn))) = .ok doc →
      (convert_document env (.obj fields) fs).1 =
        .ok { status_code := 200,
              body := successBody doc.markdown
                (metadataJ doc.numPages (jGetD fields "filename" (.str "document.pdf"))) }) := by
  constructor
  · intro hsrc hcv
    unfold convert_document
    rw [if_neg (by simp [havail])]
    simp [hsrc, hcv]
  · intro bs fn hsrc hdoc hb64 hfn hcv
    unfold convert_document
    rw [if_neg (by simp [havail])]
    simp [hsrc, hdoc, hb64, hfn, hcv]

/-- The C8 witness payload with both sources present. -/
def bothSourcesArgs : JObj :=
  [("source_url", JValue.str "https://example.com/a.pdf"), ("document", JValue.str "QQ==")]

/-- C8 witness: with both sources present the URL wins and `source` is the
URL; with only a document the default filename is the `source`. -/
theorem convert_source_selection_witness :
    convert_document envOk (.obj bothSourcesArgs) [] =
      (.ok { status_code := 200,
             body := successBody "# Title"
               (metadataJ (some 3) (JValue.str "https://example.com/a.pdf")) }, []) ∧
    (convert_document envOk (.obj [("document", JValue.str "QQ==")]) []).1 =
      .ok { status_code := 200,
            body := successBody "# Title"
              (metadataJ (some 3) (JValue.str "document.pdf")) } := by
  constructor
  · exact (convert_source_selection envOk bothSourcesArgs [] docC rfl).1 rfl rfl
  · exact (convert_source_selection envOk [("document", JValue.str "QQ==")] [] docC rfl).2
      "" "document.pdf" rfl rfl rfl rfl rfl

/-- C9 counterexample: the simple variant builds its converter as
`DocumentConverter()` (library defaults, OCR enabled) while the canonical
standard route disables OCR, so a converter whose output depends on the
pipeline options makes `main` and the canonical standard route return
different bodies for the same arguments (here markdown `OCR` versus
`NOOCR`), refuting the claimed observable equality. -/
theorem simple_variant_divergence_counterexample :
    (Convert.main envDiff (.obj [("source_url", JValue.str "u")]) []).1.statusCode =
      (standardRoute envDiff (.obj [("source_url", JValue.str "u")]) []).1.statusCode ∧
    ¬ (RespBody.json (Convert.main envDiff (.obj [("source_url", JValue.str "u")]) []).1.body =
        (standardRoute envDiff (.obj [("source_url", JValue.str "u")]) []).1.body) := by
  refine ⟨rfl, fun h => ?_⟩
  have h2 : JValue.str "OCR" = JValue.str "NOOCR" :=
    congrArg (fun b => match b with
      | RespBody.json (JValue.obj l) => jGet l "markdown"
      | _ => JValue.null) h
  injection h2 with h3
  exact absurd h3 (by decide)

/-- C9 (amended): whenever the conversion library's behaviour is
insensitive to the pipeline-option difference (`DocumentConverter()`
defaults in the simple variant versus OCR-disabled in the canonical one),
the simple variant's `main(args)` produces exactly the observable result of
the canonical variant's standard conversion route on the same arguments —
same status code, same JSON body (including every error result), same
filesystem effect; the only other difference between the variants is that
the `/full` export route is absent from the simple one. -/
theorem simple_variant_matches_standard_route (env : Env) (args : JValue) (fs : FS)
    (hcfg : ∀ c c' s, env.convert c s = env.convert c' s) :
    (Convert.main env args fs).1.statusCode = (standardRoute env args fs).1.statusCode ∧
    RespBody.json (Convert.main env args fs).1.body = (standardRoute env args fs).1.body ∧
    (Convert.main env args fs).2 = (standardRoute env args fs).2 := by
  have hc : env.convert defaultConverterConfig = env.convert fastConfig := by
    funext sr
    exact hcfg _ _ sr
  unfold Convert.main standardRoute convert_document
  rw [hc]
  by_cases hA : env.doclingAvailable = false
  · rw [if_pos hA, if_pos hA]
    exact ⟨rfl, rfl, rfl⟩
  · rw [if_neg hA, if_neg hA]
    cases args with
    | null => exact ⟨rfl, rfl, rfl⟩
    | bool b => exact ⟨rfl, rfl, rfl⟩
    | num n => exact ⟨rfl, rfl, rfl⟩
    | str s => exact ⟨rfl, rfl, rfl⟩
    | arr l => exact ⟨rfl, rfl, rfl⟩
    | obj fields =>
      dsimp only
      by_cases hms : (!(jGet fields "source_url").truthy && !(jGet fields "document").truthy) = true
      · rw [if_pos hms, if_pos hms]
        exact ⟨rfl, rfl, rfl⟩
      · rw [if_neg hms, if_neg hms]
        by_cases hsu : (jGet fields "source_url").truthy = true
        · rw [if_pos hsu, if_pos hsu]
          cases hcv : env.convert fastConfig (.url (jGet fields "source_url")) with
          | error e => exact ⟨rfl, rfl, rfl⟩
          | ok result => exact ⟨rfl, rfl, rfl⟩
        · rw [if_neg hsu, if_neg hsu]
          cases hb : env.b64decode (jGet fields "document") with
          | error e => exact ⟨rfl, rfl, rfl⟩
          | ok bs =>
            dsimp only
            cases hfn : jPathStr (jGetD fields "filename" (.str "document.pdf")) with
            | error e => exact ⟨rfl, rfl, rfl⟩
            | ok fn =>
              dsimp only
              cases hcv : env.convert fastConfig (.path (env.mkTemp (suffixOf fn))) with
              | error e => exact ⟨rfl, rfl, rfl⟩
              | ok result => exact ⟨rfl, rfl, rfl⟩

/-- C9 witness: a configuration-insensitive environment at a concrete
payload. -/
theorem simple_variant_matches_standard_route_witness :
    (Convert.main envOk (.obj [("source_url", JValue.str "u")]) []).1.statusCode =
      (standardRoute envOk (.obj [("source_url", JValue.str "u")]) []).1.statusCode ∧
    RespBody.json (Convert.main envOk (.obj [("source_url", JValue.str "u")]) []).1.body =
      (standardRoute envOk (.obj [("source_url", JValue.str "u")]) []).1.body ∧
    (Convert.main envOk (.obj [("source_url", JValue.str "u")]) []).2 =
      (standardRoute envOk (.obj [("source_url", JValue.str "u")]) []).2 :=
  simple_variant_matches_standard_route envOk (.obj [("source_url", JValue.str "u")]) []
    (fun _ _ _ => rfl)
